import Mathlib

/-!
Verification of the openwork agent session runtime against its
natural-language specification.

The definitions below are a shallow embedding of the TypeScript source:
  * `src/src/main/ipc/models.ts` — IPC handlers for workspace file reads,
    user-model configuration and credential storage (plus the storage
    module concatenated into that file).
  * `src/src/main/agent/runtime.ts` — the session runtime manager
    (`createAgentRuntime`, `getCheckpointer`, `getModelInstance`, `initMCP`).

Machine strings are modelled as Lean `String`; JavaScript truthiness on
strings (`!s`, `s || t`) is modelled explicitly (empty string is falsy);
fallible code returns `Except` / `Option`; the filesystem is an explicit
map from absolute path to file content; async interleaving (for the
checkpointer race) is a small-step scheduler over program counters.
-/

namespace Openwork

/-! ## Path model (Node `path.join` / `path.resolve` on absolute POSIX paths)

`workspace:readFile` in `models.ts` builds
`fullPath = path.join(workspacePath, relativePath)` and compares
`path.resolve(fullPath)` against `path.resolve(workspacePath)` using
JavaScript `String.prototype.startsWith`.  We model absolute-path
normalisation segment-wise: empty and `.` segments are dropped, `..` pops
the last segment (and is dropped at the root, as Node does for absolute
paths). -/

/-- Split a path string on `/` characters. -/
def splitOnSlash (s : String) : List String :=
  let step := fun (acc : List String × List Char) (c : Char) =>
    if c = '/' then (acc.1 ++ [String.mk acc.2.reverse], ([] : List Char))
    else (acc.1, c :: acc.2)
  let r := s.data.foldl step ([], [])
  r.1 ++ [String.mk r.2.reverse]

/-- Normalise the segment list of an absolute path: drop empty and `.`
segments, let `..` pop the previous segment (no-op at the root). -/
def normSegs (segs : List String) : List String :=
  segs.foldl (fun acc s =>
    if s = "" ∨ s = "." then acc
    else if s = ".." then acc.dropLast
    else acc ++ [s]) []

/-- Rebuild an absolute path string from normalised segments. -/
def joinSegs (segs : List String) : String :=
  match segs with
  | [] => "/"
  | _ => segs.foldl (fun acc s => acc ++ "/" ++ s) ""

/-- Node `path.resolve` on an already-absolute path: canonicalise `.`,
`..` and duplicate separators. -/
def resolveAbs (p : String) : String :=
  joinSegs (normSegs (splitOnSlash p))

/-- Node `path.join(a, b)` for an absolute `a`: concatenate and
normalise. -/
def joinPath (a b : String) : String :=
  resolveAbs (a ++ "/" ++ b)

/-- JavaScript `String.prototype.startsWith`: string prefix test. -/
def strStartsWith (s pre : String) : Bool :=
  pre.data.isPrefixOf s.data

/-- Specification-side meaning of "the canonicalized path lies within the
workspace root": the root's normalised segment list is a segment-wise
prefix of the path's. -/
def liesWithin (p workspaceRoot : String) : Bool :=
  (normSegs (splitOnSlash workspaceRoot)).isPrefixOf (normSegs (splitOnSlash p))

/-- Result of the `workspace:readFile` / `workspace:readBinaryFile` IPC
handlers, restricted to the fields the claims mention. -/
inductive ReadFileResult where
  | noWorkspace
  | accessDenied
  | ok (content : String)
  | fsError (msg : String)
deriving DecidableEq, Repr

/-- Shallow embedding of the `workspace:readFile` handler
(`models.ts` lines 270–321).  The filesystem is a map from absolute path
to text content (`none` = no such file).  The second component of the
result lists the absolute paths at which a filesystem read (`fs.stat` /
`fs.readFile`) was performed, so "no filesystem read occurs" is
observable. -/
def workspaceReadFile (fsFiles : String → Option String)
    (workspacePath : Option String) (filePath : String) :
    ReadFileResult × List String :=
  match workspacePath with
  | none => (ReadFileResult.noWorkspace, [])
  | some ws =>
    let relativePath := if strStartsWith filePath "/" then filePath.drop 1 else filePath
    let fullPath := joinPath ws relativePath
    let resolvedPath := resolveAbs fullPath
    let resolvedWorkspace := resolveAbs ws
    if strStartsWith resolvedPath resolvedWorkspace then
      match fsFiles fullPath with
      | some content => (ReadFileResult.ok content, [fullPath])
      | none => (ReadFileResult.fsError "ENOENT", [fullPath])
    else
      (ReadFileResult.accessDenied, [])

/-- Shallow embedding of the `workspace:readBinaryFile` handler
(`models.ts` lines 324–376); its path handling and security check are
verbatim identical to `workspace:readFile`, only the final read returns
base64 text.  The base64 transcoding is irrelevant to the boundary claim
and is abstracted as the identity on the stored content. -/
def workspaceReadBinaryFile (fsFiles : String → Option String)
    (workspacePath : Option String) (filePath : String) :
    ReadFileResult × List String :=
  workspaceReadFile fsFiles workspacePath filePath

/-- Demonstration filesystem: a secret file in `/ws2`, a sibling of the
workspace `/ws` whose name shares `/ws` as a string prefix. -/
def fsDemo : String → Option String := fun p =>
  if p = "/ws2/secret.txt" then some "top secret" else none

/-! ## Checkpoint store (`runtime.ts` lines 92–112)

`getCheckpointer` keeps a module-level `Map<string, SqlJsSaver>`; on a
cache miss it constructs a `SqlJsSaver`, `await`s `initialize()` and only
then inserts the handle into the map.  We track, besides the cache, the
number of handles ever opened and the number of schema initialisations
run (the spec's "initialization side-effect counter"). -/

/-- Global checkpointer state: the `checkpointers` map (as an
association list, newest first), a fresh-handle counter and the two
side-effect counters. -/
structure CkptState where
  cache : List (String × Nat)
  nextHandle : Nat
  opened : Nat
  initCount : Nat
deriving DecidableEq, Repr

/-- The `checkpointers.get(threadId)` map lookup. -/
def lookupCache (cache : List (String × Nat)) (threadId : String) : Option Nat :=
  (cache.find? (fun p => p.1 == threadId)).map Prod.snd

def initCkptState : CkptState := ⟨[], 0, 0, 0⟩

/-- Sequential semantics of `getCheckpointer` (`runtime.ts` 95–104):
return the cached handle if present; otherwise open a new handle, run
schema initialisation, cache it and return it. -/
def getCheckpointer (s : CkptState) (threadId : String) : Nat × CkptState :=
  match lookupCache s.cache threadId with
  | some h => (h, s)
  | none =>
    let h := s.nextHandle
    (h, { cache := (threadId, h) :: s.cache
          nextHandle := s.nextHandle + 1
          opened := s.opened + 1
          initCount := s.initCount + 1 })

/-! ### Interleaved semantics for concurrent acquisition

`getCheckpointer` is `async` and suspends at `await checkpointer.initialize()`
— after the cache lookup and handle construction, before
`checkpointers.set(threadId, checkpointer)`.  Each call therefore splits
into two atomic steps:

  * step 1 (synchronous prefix, lines 96–99): map lookup; on a hit the
    call completes immediately with the cached handle; on a miss it
    constructs the `SqlJsSaver` (a new open handle) and suspends at the
    `await`;
  * step 2 (continuation after the `await`, lines 100–101): the
    initialisation side effect lands and the handle is inserted into the
    map. -/

/-- Program counter of one in-flight `getCheckpointer(threadId)` call. -/
inductive TaskPC where
  | ready
  | awaitingInit (h : Nat)
  | finished (h : Nat)
deriving DecidableEq, Repr

/-- One atomic step of an in-flight call against the global state. -/
def stepTask (g : CkptState) (t : TaskPC) (threadId : String) : CkptState × TaskPC :=
  match t with
  | TaskPC.ready =>
    match lookupCache g.cache threadId with
    | some h => (g, TaskPC.finished h)
    | none =>
      let h := g.nextHandle
      ({ g with nextHandle := g.nextHandle + 1, opened := g.opened + 1 },
       TaskPC.awaitingInit h)
  | TaskPC.awaitingInit h =>
    ({ g with initCount := g.initCount + 1, cache := (threadId, h) :: g.cache },
     TaskPC.finished h)
  | TaskPC.finished h => (g, TaskPC.finished h)

/-- Run two concurrent `getCheckpointer(threadId)` calls under a
schedule: `true` steps the first call, `false` the second. -/
def runSched (g : CkptState) (a b : TaskPC) (threadId : String) :
    List Bool → CkptState × TaskPC × TaskPC
  | [] => (g, a, b)
  | true :: rest =>
    let (g', a') := stepTask g a threadId
    runSched g' a' b threadId rest
  | false :: rest =>
    let (g', b') := stepTask g b threadId
    runSched g' a b' threadId rest

/-! ## User Model Config (`models.ts` handlers and storage, lines 52–58,
382–386, 530–559)

A `UserModel` record has `id`, `name`, `modelId`, optional `description`
and optional `isDefault`.  The optional boolean `isDefault` is only ever
consumed through JavaScript truthiness (`m.isDefault`, `!!`), so
`undefined` and `false` are observationally identical and both are
modelled as `false`. -/

structure UserModel where
  id : String
  name : String
  modelId : String
  isDefault : Bool
deriving DecidableEq, Repr

/-- The `models:setDefault` IPC handler (lines 52–58): persist the chosen
id in the settings store and rewrite every record's `isDefault` flag to
`m.id === modelId`.  Returns the new store value and the new record
set. -/
def setDefaultHandler (models : List UserModel) (modelId : String) :
    Option String × List UserModel :=
  (some modelId, models.map (fun m => { m with isDefault := m.id == modelId }))

/-- `addUserModel` (storage, lines 545–554): replace the record with the
same id in place if one exists, otherwise append. -/
def addUserModel (models : List UserModel) (model : UserModel) : List UserModel :=
  match models.findIdx? (fun m => m.id == model.id) with
  | some i => models.set i model
  | none => models ++ [model]

/-- `deleteUserModel` (storage, lines 556–559): drop every record whose
id equals the argument. -/
def deleteUserModel (models : List UserModel) (modelId : String) : List UserModel :=
  models.filter (fun m => !(m.id == modelId))

/-- Number of records flagged as default. -/
def countDefaults (models : List UserModel) : Nat :=
  (models.filter (fun m => m.isDefault)).length

/-- The spec's exclusivity invariant: at most one record carries the
default flag. -/
def atMostOneDefault (models : List UserModel) : Prop :=
  countDefaults models ≤ 1

instance (models : List UserModel) : Decidable (atMostOneDefault models) :=
  inferInstanceAs (Decidable (_ ≤ _))

/-! ## Model resolver and session runtime (`runtime.ts` 115–243)

`getModelInstance` reads the global credential/endpoint config and the
user model set; `createAgentRuntime` composes the session.  JavaScript
string truthiness (`!apiKey`, `if (modelId)`, `a || b`) is modelled
explicitly: `undefined`/`null` and the empty string are falsy. -/

/-- JavaScript truthiness of a string. -/
def truthyS (s : String) : Bool := !(s == "")

/-- JavaScript truthiness of a possibly-undefined string. -/
def truthyOpt (s : Option String) : Bool :=
  match s with
  | some v => truthyS v
  | none => false

/-- JavaScript `v || fallback` where `v` may be undefined: the fallback
is taken when `v` is `undefined` or the empty string. -/
def jsOr (v : Option String) (fallback : String) : String :=
  match v with
  | some s => if s = "" then fallback else s
  | none => fallback

/-- Global configuration visible to the runtime: the result of
`getApiKey()` (undefined when not configured), `getBaseUrl()`,
`getUserModels()` and the settings-store `defaultModel` entry. -/
structure RuntimeConfig where
  apiKey : Option String
  baseUrl : String
  userModels : List UserModel
  defaultModelStore : Option String
deriving DecidableEq, Repr

/-- `getDefaultModel` (`models.ts` 382–386):
`userModels.find(m => m.isDefault)?.id || store.get("defaultModel", null)`. -/
def getDefaultModel (cfg : RuntimeConfig) : Option String :=
  match cfg.userModels.find? (fun m => m.isDefault) with
  | some m => if m.id = "" then cfg.defaultModelStore else some m.id
  | none => cfg.defaultModelStore

/-- Typed error taxonomy of the runtime (`throw new Error(...)` sites). -/
inductive RuntimeError where
  | missingThreadId
  | missingWorkspace
  | credentialMissing
  | noDefaultModel
deriving DecidableEq, Repr

/-- The constructed `ChatOpenAI` client, restricted to the configuration
the source passes it (`runtime.ts` 146–153).  Construction performs no
network I/O. -/
structure ChatModel where
  model : String
  apiKey : String
  baseURL : String
deriving DecidableEq, Repr

/-- `getModelInstance` (`runtime.ts` 115–154): `if (!apiKey) throw`;
then `actualModelId` is assigned in the `if (modelId)` / else branches
(`userModel?.modelId || modelId`, resp. the default-model lookup with
`if (!defaultId) throw`), and finally the single `return new
ChatOpenAI(...)` constructs the client — no network I/O. -/
def getModelInstance (cfg : RuntimeConfig) (modelId : Option String) :
    Except RuntimeError ChatModel :=
  if truthyOpt cfg.apiKey = false then
    Except.error RuntimeError.credentialMissing
  else
    let key := cfg.apiKey.getD ""
    let actualModelId : Except RuntimeError String :=
      if truthyOpt modelId then
        let mid := modelId.getD ""
        let userModel := cfg.userModels.find? (fun m => m.id == mid)
        Except.ok (jsOr (userModel.map (fun m => m.modelId)) mid)
      else
        match getDefaultModel cfg with
        | none => Except.error RuntimeError.noDefaultModel
        | some defaultId =>
          if truthyS defaultId = false then
            Except.error RuntimeError.noDefaultModel
          else
            let defaultModel := cfg.userModels.find? (fun m => m.id == defaultId)
            Except.ok (jsOr (defaultModel.map (fun m => m.modelId)) defaultId)
    actualModelId.map
      (fun actual => { model := actual, apiKey := key, baseURL := cfg.baseUrl })

/-- The assembled agent session, restricted to the fields the claims
mention (`createDeepAgent` call, `runtime.ts` 226–239).  `interruptOn:
{ execute: true }` is the human-approval policy flag for command
execution; `tools` mirrors `mcpTools.length > 0 ? mcpTools : undefined`. -/
structure Session where
  model : ChatModel
  checkpointer : Nat
  workspacePath : String
  interruptOnExecute : Bool
  tools : Option (List String)
deriving DecidableEq, Repr

/-- Process-wide mutable state the runtime touches: global config, the
checkpointer cache and the module-level `mcpTools` list. -/
structure RuntimeState where
  cfg : RuntimeConfig
  ckpt : CkptState
  mcpTools : List String
deriving DecidableEq, Repr

/-- `createAgentRuntime` (`runtime.ts` 168–243): validate `threadId` then
`workspacePath`, resolve the model, acquire the per-thread checkpointer,
and assemble the session with the unconditional
`interruptOn: { execute: true }` policy flag.  An error result
leaves the process state untouched (the source throws before any cache
mutation). -/
def createAgentRuntime (st : RuntimeState) (threadId : String)
    (modelId : Option String) (workspacePath : String) :
    Except RuntimeError (Session × RuntimeState) :=
  if threadId = "" then Except.error RuntimeError.missingThreadId
  else if workspacePath = "" then Except.error RuntimeError.missingWorkspace
  else
    match getModelInstance st.cfg modelId with
    | Except.error e => Except.error e
    | Except.ok model =>
      let acquired := getCheckpointer st.ckpt threadId
      Except.ok
        ({ model := model
           checkpointer := acquired.1
           workspacePath := workspacePath
           interruptOnExecute := true
           tools := if st.mcpTools.length > 0 then some st.mcpTools else none },
         { st with ckpt := acquired.2 })

/-! ## External tool pool (`runtime.ts` 44–59)

`initMCP` wraps the whole connection/tool-fetch of the
`MultiServerMCPClient` (an external library aggregating all configured
servers in one call) in a single `try/catch`; the catch clause logs and
resets `mcpTools` to `[]`.  The external aggregate call is a parameter:
`Except.ok ts` models a successful fetch returning tool list `ts`,
`Except.error e` models the call throwing. -/

/-- The `mcpTools` list `initMCP` leaves behind. -/
def initMCP (getToolsResult : Except String (List String)) : List String :=
  match getToolsResult with
  | Except.ok ts => ts
  | Except.error _ => []

/-- `initMCP` as seen by its caller: the catch-all turns every outcome of
the aggregated fetch into a normal return carrying the resulting tool
list. -/
def initMCPRun (getToolsResult : Except String (List String)) :
    Except String (List String) :=
  match getToolsResult with
  | Except.ok ts => Except.ok ts
  | Except.error _ => Except.ok []

/-! ## Credential storage (`models.ts` storage section, lines 440–502)

The API key lives in two places: the `OPENAI_API_KEY` entry of the
`~/.openwork/.env` file and `process.env.OPENAI_API_KEY`.  We model the
state by the two entries.  `writeEnvFile` (lines 461–467) filters out
entries with a falsy value, so a key set to the empty string is never
persisted to the file; `setApiKey` also assigns `process.env` (empty
string included), and `deleteApiKey` removes both.  `getApiKey` (lines
473–480) prefers a truthy file entry and otherwise falls back to
`process.env`. -/

/-- State of the API-key credential: the `.env` file entry (after the
`writeEnvFile` falsy-value filter) and the `process.env` entry. -/
structure EnvState where
  fileKey : Option String
  procKey : Option String
deriving DecidableEq, Repr

/-- Fresh install: no `.env` file, no ambient `OPENAI_API_KEY` in the
process environment. -/
def envInit : EnvState := ⟨none, none⟩

/-- `setApiKey` (lines 482–489): write the key into the env object and
persist via `writeEnvFile` — whose `.filter((entry) => entry[1])` drops a
falsy (empty) value — then assign `process.env.OPENAI_API_KEY`. -/
def setApiKey (_s : EnvState) (apiKey : String) : EnvState :=
  { fileKey := if apiKey = "" then none else some apiKey
    procKey := some apiKey }

/-- `deleteApiKey` (lines 491–498): delete the entry from the env object,
rewrite the file, and delete `process.env.OPENAI_API_KEY`. -/
def deleteApiKey (_s : EnvState) : EnvState :=
  { fileKey := none, procKey := none }

/-- `getApiKey` (lines 473–480): `if (env[OPENAI_API_KEY]) return it`
(truthy check — an empty file entry falls through), else
`process.env[OPENAI_API_KEY]`. -/
def getApiKey (s : EnvState) : Option String :=
  match s.fileKey with
  | some v => if v = "" then s.procKey else some v
  | none => s.procKey

/-- `hasApiKey` (lines 500–502): `!!getApiKey()`. -/
def hasApiKey (s : EnvState) : Bool :=
  truthyOpt (getApiKey s)

/-- A credential operation issued through the IPC surface. -/
inductive EnvOp where
  | setKey (apiKey : String)
  | delKey
deriving DecidableEq, Repr

/-- Apply one credential operation. -/
def applyEnvOp (s : EnvState) (op : EnvOp) : EnvState :=
  match op with
  | EnvOp.setKey k => setApiKey s k
  | EnvOp.delKey => deleteApiKey s

/-- Run a sequence of credential operations from the fresh-install
state. -/
def runEnv (ops : List EnvOp) : EnvState :=
  ops.foldl applyEnvOp envInit

/-- The full observation the IPC surface offers about the credential:
the `models:hasApiKey` and `models:getApiKey` query results. -/
def credObservation (s : EnvState) : Bool × Option String :=
  (hasApiKey s, getApiKey s)

/-! ## Concrete fixtures used by witnesses and counterexamples -/

/-- A configuration with a credential and no registered user models. -/
def cfgDemo : RuntimeConfig :=
  ⟨some "sk-test", "https://api.openai.com/v1", [], none⟩

/-- Process state at startup with the demo configuration and no MCP
tools. -/
def stDemo : RuntimeState := ⟨cfgDemo, initCkptState, []⟩

/-- A configuration whose single registered user model has an empty
provider-side model identifier. -/
def cfgEmptyProviderId : RuntimeConfig :=
  ⟨some "sk-test", "https://api.openai.com/v1", [⟨"a", "Model A", "", false⟩], none⟩

/-- A user-model record flagged as default. -/
def modelA : UserModel := ⟨"a", "Model A", "provider-a", true⟩

/-- A second, distinct user-model record also flagged as default. -/
def modelB : UserModel := ⟨"b", "Model B", "provider-b", true⟩

/-! ## Helper lemmas -/

/-- After `models:setDefault`, the number of default-flagged records is
the number of records carrying the chosen id. -/
theorem countDefaults_setDefault (models : List UserModel) (modelId : String) :
    countDefaults (setDefaultHandler models modelId).2
      = List.count modelId (models.map (fun m => m.id)) := by
  induction models with
  | nil => rfl
  | cons m t ih =>
    by_cases hid : m.id == modelId
    · simp [countDefaults, setDefaultHandler, List.count_cons, hid] at *
      omega
    · simp [countDefaults, setDefaultHandler, List.count_cons, hid] at *
      omega

/-- Filtering records never increases the number of defaults. -/
theorem countDefaults_filter_le (q : UserModel → Bool) (models : List UserModel) :
    countDefaults (models.filter q) ≤ countDefaults models := by
  induction models with
  | nil => simp [countDefaults]
  | cons m t ih =>
    by_cases hq : q m <;> by_cases hd : m.isDefault <;>
      simp [countDefaults, List.filter_cons, hq, hd] at * <;> omega

/-- Overwriting a slot with a non-default record never increases the
number of defaults. -/
theorem countDefaults_set_le (models : List UserModel) (i : Nat) (m : UserModel)
    (hm : m.isDefault = false) :
    countDefaults (models.set i m) ≤ countDefaults models := by
  induction models generalizing i with
  | nil => simp [countDefaults]
  | cons x t ih =>
    cases i with
    | zero =>
      by_cases hd : x.isDefault <;>
        simp [countDefaults, List.filter_cons, hm, hd] at *
    | succ j =>
      have hj := ih j
      by_cases hd : x.isDefault <;>
        simp [countDefaults, List.filter_cons, hd] at * <;> omega

/-- Appending a non-default record keeps the number of defaults. -/
theorem countDefaults_append_nondefault (models : List UserModel) (m : UserModel)
    (hm : m.isDefault = false) :
    countDefaults (models ++ [m]) = countDefaults models := by
  simp [countDefaults, List.filter_append, List.filter_cons, hm]

/-! ## Claims -/

/-- C1: the claim states that every virtual path whose canonicalized
result lies outside the workspace root is rejected with `AccessDenied`
and no filesystem read occurs.  The code checks containment with
JavaScript string `startsWith` on the resolved paths, so a `..` traversal
into a sibling directory whose name has the workspace root as a string
prefix slips through: under workspace root `/ws`, the virtual path
`/../ws2/secret.txt` canonicalizes to `/ws2/secret.txt`, which does not
lie within `/ws`, yet both `workspace:readFile` and
`workspace:readBinaryFile` pass the check, perform a filesystem read at
`/ws2/secret.txt` and return the file's contents instead of
`AccessDenied`.  This contradicts the handler's own comment ("Security
check: ensure the resolved path is within the workspace"), so the code,
not the claim, is wrong. -/
theorem c1_boundary_guard_bypassed :
    workspaceReadFile fsDemo (some "/ws") "/../ws2/secret.txt"
      = (ReadFileResult.ok "top secret", ["/ws2/secret.txt"]) ∧
    workspaceReadBinaryFile fsDemo (some "/ws") "/../ws2/secret.txt"
      = (ReadFileResult.ok "top secret", ["/ws2/secret.txt"]) ∧
    liesWithin "/ws2/secret.txt" "/ws" = false :=
  ⟨by decide, by decide, by decide⟩

/-- C2: the claim states that two concurrent acquisitions for the same
thread id yield exactly one open handle and one schema initialization.
`getCheckpointer` suspends at `await checkpointer.initialize()` after the
cache lookup but before `checkpointers.set(...)`, so the interleaving in
which both calls perform their lookup before either caches (schedule:
lookup A, lookup B, init A, init B) opens two handles, runs the
initialization twice, and hands the two callers two distinct handles for
the same thread id — violating the invariant the spec states the cache
exists to enforce.  The code, not the claim, is wrong. -/
theorem c2_concurrent_acquire_duplicates_handles :
    (runSched initCkptState TaskPC.ready TaskPC.ready "t1"
        [true, false, true, false]).1.opened = 2 ∧
    (runSched initCkptState TaskPC.ready TaskPC.ready "t1"
        [true, false, true, false]).1.initCount = 2 ∧
    (runSched initCkptState TaskPC.ready TaskPC.ready "t1"
        [true, false, true, false]).2.1
      ≠ (runSched initCkptState TaskPC.ready TaskPC.ready "t1"
        [true, false, true, false]).2.2 :=
  ⟨by decide, by decide, by decide⟩

/-- C3: a sequential re-acquisition for a thread id whose handle is
cached returns the existing handle and leaves the whole checkpointer
state — in particular the opened-handle and initialization counters —
unchanged: no second file handle is opened and initialization is not
re-run. -/
theorem c3_sequential_reacquire_returns_cached (s : CkptState) (threadId : String)
    (h : Nat) (hc : lookupCache s.cache threadId = some h) :
    getCheckpointer s threadId = (h, s) := by
  simp [getCheckpointer, hc]

/-- Witness for C3 at a concrete cached state. -/
theorem c3_sequential_reacquire_returns_cached_witness :
    lookupCache [("t1", 0)] "t1" = some 0 ∧
    getCheckpointer ⟨[("t1", 0)], 1, 1, 1⟩ "t1" = (0, ⟨[("t1", 0)], 1, 1, 1⟩) :=
  ⟨by decide, c3_sequential_reacquire_returns_cached ⟨[("t1", 0)], 1, 1, 1⟩ "t1" 0 (by decide)⟩

/-- C4 counterexample: not every mutating operation preserves the
exclusivity of the default flag.  `addUserModel` stores the given record
verbatim, `isDefault` flag included: starting from a set whose only
record is the default, adding a second record that also carries the flag
leaves two defaults. -/
theorem c4_add_breaks_exclusivity :
    atMostOneDefault [modelA] ∧
    ¬ atMostOneDefault (addUserModel [modelA] modelB) :=
  ⟨by decide, by decide⟩

/-- C4 (amended): `models:setDefault` establishes exclusivity whenever
record ids are pairwise distinct (it flags exactly the records carrying
the chosen id and clears all others); `deleteUserModel` preserves
exclusivity; and `addUserModel` preserves exclusivity provided the
record being added or replaced does not itself carry the default flag. -/
theorem c4_amended_default_exclusivity :
    (∀ (models : List UserModel) (modelId : String),
        (models.map (fun m => m.id)).Nodup →
        atMostOneDefault (setDefaultHandler models modelId).2) ∧
    (∀ (models : List UserModel) (modelId : String),
        atMostOneDefault models →
        atMostOneDefault (deleteUserModel models modelId)) ∧
    (∀ (models : List UserModel) (m : UserModel),
        atMostOneDefault models → m.isDefault = false →
        atMostOneDefault (addUserModel models m)) := by
  refine ⟨?_, ?_, ?_⟩
  · intro models modelId hnd
    unfold atMostOneDefault
    rw [countDefaults_setDefault]
    exact List.nodup_iff_count_le_one.mp hnd modelId
  · intro models modelId hinv
    exact le_trans (countDefaults_filter_le _ models) hinv
  · intro models m hinv hm
    unfold addUserModel
    cases hidx : models.findIdx? (fun x => x.id == m.id) with
    | some i => exact le_trans (countDefaults_set_le models i m hm) hinv
    | none =>
      unfold atMostOneDefault
      rw [countDefaults_append_nondefault models m hm]
      exact hinv

/-- Witness for C4 (amended) at concrete inputs: setting `b` as default
over a two-record set with two flagged defaults, deleting from a
single-default set, and adding a non-default record. -/
theorem c4_amended_default_exclusivity_witness :
    atMostOneDefault (setDefaultHandler [modelA, modelB] "b").2 ∧
    atMostOneDefault (deleteUserModel [modelA] "a") ∧
    atMostOneDefault (addUserModel [modelA] ⟨"c", "Model C", "provider-c", false⟩) :=
  ⟨c4_amended_default_exclusivity.1 [modelA, modelB] "b" (by decide),
   c4_amended_default_exclusivity.2.1 [modelA] "a" (by decide),
   c4_amended_default_exclusivity.2.2 [modelA] ⟨"c", "Model C", "provider-c", false⟩
     (by decide) (by decide)⟩

/-- C5 counterexample: the claim quantifies over *every* combination of
the other arguments, but `createAgentRuntime` validates `threadId`
first: with an empty `threadId` and an empty `workspacePath` the call
fails with `MissingThreadId`, not `MissingWorkspace`. -/
theorem c5_empty_threadid_shadows_workspace :
    createAgentRuntime stDemo "" none "" = Except.error RuntimeError.missingThreadId ∧
    RuntimeError.missingThreadId ≠ RuntimeError.missingWorkspace :=
  ⟨by rfl, by decide⟩

/-- C5 (amended): for every non-empty `threadId`, every `modelId` and
every starting process state, calling `createAgentRuntime` with an empty
`workspacePath` fails with `MissingWorkspace`.  The result is a bare
error carrying no successor state, and the statement holds for arbitrary
states, so repeated calls fail identically and neither the model
resolver nor the checkpointer cache is touched. -/
theorem c5_amended_missing_workspace (st : RuntimeState) (threadId : String)
    (modelId : Option String) (h : threadId ≠ "") :
    createAgentRuntime st threadId modelId ""
      = Except.error RuntimeError.missingWorkspace := by
  simp [createAgentRuntime, h]

/-- Witness for C5 (amended) at a concrete state and thread id. -/
theorem c5_amended_missing_workspace_witness :
    createAgentRuntime stDemo "t1" none ""
      = Except.error RuntimeError.missingWorkspace :=
  c5_amended_missing_workspace stDemo "t1" none (by decide)

/-- C6: every session successfully returned by `createAgentRuntime`
carries the human-approval policy flag for command execution
(`interruptOn: { execute: true }`); the flag is a literal in the single
session-construction site and none of the call's arguments can change
it. -/
theorem c6_interrupt_on_execute_invariant (st : RuntimeState) (threadId : String)
    (modelId : Option String) (workspacePath : String) (s : Session)
    (st' : RuntimeState)
    (h : createAgentRuntime st threadId modelId workspacePath = Except.ok (s, st')) :
    s.interruptOnExecute = true := by
  unfold createAgentRuntime at h
  split at h
  · exact absurd h (by simp)
  · split at h
    · exact absurd h (by simp)
    · split at h
      · exact absurd h (by simp)
      · simp only [Except.ok.injEq, Prod.mk.injEq] at h
        rw [← h.1]

/-- Witness for C6: a concrete successful session creation. -/
theorem c6_interrupt_on_execute_invariant_witness :
    ({ model := ⟨"gpt-4o", "sk-test", "https://api.openai.com/v1"⟩
       checkpointer := 0
       workspacePath := "/w"
       interruptOnExecute := true
       tools := none } : Session).interruptOnExecute = true :=
  c6_interrupt_on_execute_invariant stDemo "t1" (some "gpt-4o") "/w"
    { model := ⟨"gpt-4o", "sk-test", "https://api.openai.com/v1"⟩
      checkpointer := 0
      workspacePath := "/w"
      interruptOnExecute := true
      tools := none }
    ⟨cfgDemo, ⟨[("t1", 0)], 1, 1, 1⟩, []⟩ (by rfl)

/-- C7: for every `modelId` (supplied or omitted), `getModelInstance`
fails with `CredentialMissing` when no API key is configured, and every
successfully constructed client carries a configured, truthy (non-empty)
credential — the client is never built without one. -/
theorem c7_credential_required :
    (∀ (cfg : RuntimeConfig) (modelId : Option String),
        cfg.apiKey = none →
        getModelInstance cfg modelId = Except.error RuntimeError.credentialMissing) ∧
    (∀ (cfg : RuntimeConfig) (modelId : Option String) (c : ChatModel),
        getModelInstance cfg modelId = Except.ok c →
        ∃ k, cfg.apiKey = some k ∧ truthyS k = true ∧ c.apiKey = k) := by
  constructor
  · intro cfg modelId hk
    simp [getModelInstance, hk, truthyOpt]
  · intro cfg modelId c h
    unfold getModelInstance at h
    cases hk : cfg.apiKey with
    | none => rw [hk] at h; simp [truthyOpt] at h
    | some k =>
      rw [hk] at h
      cases ht : truthyS k with
      | false => simp [truthyOpt, ht] at h
      | true =>
        refine ⟨k, rfl, ht, ?_⟩
        simp only [truthyOpt, ht, Bool.true_eq_false, if_false] at h
        split at h
        · simp only [Except.map, Except.ok.injEq] at h
          rw [← h]
          rfl
        · split at h
          · exact absurd h (by simp [Except.map])
          · split at h
            · exact absurd h (by simp [Except.map])
            · simp only [Except.map, Except.ok.injEq] at h
              rw [← h]
              rfl

/-- Witness for C7: missing credential fails at a concrete
configuration; at a configured one the credential is truthy. -/
theorem c7_credential_required_witness :
    getModelInstance ⟨none, "https://api.openai.com/v1", [], none⟩ (some "gpt-4o")
      = Except.error RuntimeError.credentialMissing ∧
    truthyOpt cfgDemo.apiKey = true :=
  ⟨c7_credential_required.1 ⟨none, "https://api.openai.com/v1", [], none⟩
      (some "gpt-4o") rfl,
   by
    obtain ⟨k, hk, ht, -⟩ := c7_credential_required.2 cfgDemo (some "gpt-4o")
      ⟨"gpt-4o", "sk-test", "https://api.openai.com/v1"⟩ (by rfl)
    rw [hk]
    exact ht⟩

/-- C8 counterexample: the containment in `initMCP` is all-or-nothing,
not per-server.  The whole aggregated connection/tool fetch of the
external multi-server client sits inside one `try/catch`; when the
aggregated call throws — e.g. because one of the two configured servers
is unreachable and the library propagates the failure — the catch clause
resets the tool list to empty, excluding the healthy server's tools as
well, instead of excluding only the failing server's tools. -/
theorem c8_aggregate_failure_drops_all_tools :
    initMCP (Except.ok ["exa_search"]) = ["exa_search"] ∧
    initMCP (Except.error "ConnectionFailed: stargate-yingmi") = [] ∧
    ¬ "exa_search" ∈ initMCP (Except.error "ConnectionFailed: stargate-yingmi") :=
  ⟨by decide, by decide, by decide⟩

/-- C8 (amended): `initMCP` never raises to its caller — every outcome
of the aggregated fetch, including a thrown connection failure, results
in a normal return (with the tool list emptied on failure, dropping all
servers' tools, not only the failing server's); and session creation is
insensitive to the tool list: `createAgentRuntime` succeeds or fails
identically under any replacement tool list, and a successful session
built while the tool list is empty carries no external tools
(`tools: undefined`). -/
theorem c8_amended_failure_containment :
    (∀ r : Except String (List String), ∃ ts, initMCPRun r = Except.ok ts) ∧
    (∀ (st : RuntimeState) (threadId : String) (modelId : Option String)
        (workspacePath : String) (ts : List String),
        (∃ v, createAgentRuntime st threadId modelId workspacePath = Except.ok v) ↔
        (∃ v, createAgentRuntime { st with mcpTools := ts } threadId modelId
            workspacePath = Except.ok v)) ∧
    (∀ (st : RuntimeState) (threadId : String) (modelId : Option String)
        (workspacePath : String) (s : Session) (st' : RuntimeState),
        st.mcpTools = [] →
        createAgentRuntime st threadId modelId workspacePath = Except.ok (s, st') →
        s.tools = none) := by
  refine ⟨?_, ?_, ?_⟩
  · intro r
    cases r with
    | ok ts => exact ⟨ts, rfl⟩
    | error e => exact ⟨[], rfl⟩
  · intro st threadId modelId workspacePath ts
    unfold createAgentRuntime
    by_cases h1 : threadId = ""
    · simp [h1]
    · by_cases h2 : workspacePath = ""
      · simp [h1, h2]
      · simp only [if_neg h1, if_neg h2]
        cases hm : getModelInstance st.cfg modelId <;> simp [hm]
  · intro st threadId modelId workspacePath s st' hts h
    unfold createAgentRuntime at h
    split at h
    · exact absurd h (by simp)
    · split at h
      · exact absurd h (by simp)
      · split at h
        · exact absurd h (by simp)
        · simp only [Except.ok.injEq, Prod.mk.injEq] at h
          rw [← h.1]
          simp [hts]

/-- Witness for C8 (amended): a concrete session built with an empty
tool list carries no external tools. -/
theorem c8_amended_failure_containment_witness :
    ({ model := ⟨"gpt-4o", "sk-test", "https://api.openai.com/v1"⟩
       checkpointer := 0
       workspacePath := "/w"
       interruptOnExecute := true
       tools := none } : Session).tools = none :=
  c8_amended_failure_containment.2.2 stDemo "t1" (some "gpt-4o") "/w"
    { model := ⟨"gpt-4o", "sk-test", "https://api.openai.com/v1"⟩
      checkpointer := 0
      workspacePath := "/w"
      interruptOnExecute := true
      tools := none }
    ⟨cfgDemo, ⟨[("t1", 0)], 1, 1, 1⟩, []⟩ rfl (by rfl)

/-- C9 counterexample: the fallback is not only taken when no record
with the supplied id exists.  `actualModelId = userModel?.modelId ||
modelId` also falls back to the supplied id when a record *is* found but
its provider-side identifier is the empty string: with the registered
record `(id "a", modelId "")`, resolving `"a"` constructs the client
with provider identifier `"a"`, not the record's identifier `""`. -/
theorem c9_empty_provider_id_falls_back :
    cfgEmptyProviderId.userModels.find? (fun m => m.id == "a")
      = some ⟨"a", "Model A", "", false⟩ ∧
    getModelInstance cfgEmptyProviderId (some "a")
      = Except.ok ⟨"a", "sk-test", "https://api.openai.com/v1"⟩ ∧
    ("a" : String) ≠ "" :=
  ⟨by decide, by rfl, by decide⟩

/-- C9 (amended): for every truthy supplied `modelId`, a successful
resolution uses the first matching User Model Config record's
provider-side identifier whenever that identifier is non-empty; when no
record with the supplied id exists — or the matching record's identifier
is empty — the supplied id itself is used literally as the provider
identifier. -/
theorem c9_amended_lookup_with_fallback (cfg : RuntimeConfig) (mid : String)
    (c : ChatModel) (hmid : mid ≠ "")
    (hok : getModelInstance cfg (some mid) = Except.ok c) :
    c.model = jsOr ((cfg.userModels.find? (fun m => m.id == mid)).map
        (fun m => m.modelId)) mid ∧
    (cfg.userModels.find? (fun m => m.id == mid) = none → c.model = mid) ∧
    (∀ um, cfg.userModels.find? (fun m => m.id == mid) = some um →
        um.modelId ≠ "" → c.model = um.modelId) := by
  have hmodel : c.model
      = jsOr ((cfg.userModels.find? (fun m => m.id == mid)).map
          (fun m => m.modelId)) mid := by
    unfold getModelInstance at hok
    split at hok
    · exact absurd hok (by simp)
    · have hmt : truthyOpt (some mid) = true := by
        simp [truthyOpt, truthyS, hmid]
      simp only [hmt, if_true, Except.map, Except.ok.injEq] at hok
      rw [← hok]
      rfl
  refine ⟨hmodel, ?_, ?_⟩
  · intro hnone
    rw [hmodel, hnone]
    rfl
  · intro um hum hne
    rw [hmodel, hum]
    simp [jsOr, hne]

/-- Witness for C9 (amended): resolving an unregistered id passes it
through literally. -/
theorem c9_amended_lookup_with_fallback_witness :
    (⟨"b", "sk-test", "https://api.openai.com/v1"⟩ : ChatModel).model = "b" :=
  (c9_amended_lookup_with_fallback cfgEmptyProviderId "b"
      ⟨"b", "sk-test", "https://api.openai.com/v1"⟩ (by decide) (by rfl)).2.1
    (by decide)

/-- C10: starting from a fresh install, after any sequence of credential
operations, setting the API key to the empty string and deleting (or
never setting) the key are observably distinct states of the IPC query
surface: `models:getApiKey` answers `""` in the former state and
null/undefined in the latter, so the observation pair
(`models:hasApiKey`, `models:getApiKey`) differs.  (The empty-string key
survives only in `process.env` — `writeEnvFile` filters falsy values out
of the persisted file — but within the session the states remain
distinguishable.) -/
theorem c10_absence_distinct_from_empty_key :
    ∀ ops ops' : List EnvOp,
      getApiKey (runEnv (ops ++ [EnvOp.setKey ""])) = some "" ∧
      getApiKey (runEnv (ops' ++ [EnvOp.delKey])) = none ∧
      getApiKey (runEnv []) = none ∧
      credObservation (runEnv (ops ++ [EnvOp.setKey ""]))
        ≠ credObservation (runEnv (ops' ++ [EnvOp.delKey])) ∧
      credObservation (runEnv (ops ++ [EnvOp.setKey ""]))
        ≠ credObservation (runEnv []) := by
  intro ops ops'
  have h1 : runEnv (ops ++ [EnvOp.setKey ""]) = ⟨none, some ""⟩ := by
    simp [runEnv, List.foldl_append, applyEnvOp, setApiKey]
  have h2 : runEnv (ops' ++ [EnvOp.delKey]) = ⟨none, none⟩ := by
    simp [runEnv, List.foldl_append, applyEnvOp, deleteApiKey]
  rw [h1, h2]
  exact ⟨rfl, rfl, rfl, by decide, by decide⟩

end Openwork
